import Mathlib

/-!
Shallow embedding of the LinkedIn OIDC provider adapter
(selfservice/strategy/oidc/provider_linkedin.go) and of the boundary
behaviour of its collaborators (retrying HTTP client, upstream-error
classification, herodot error type, canonical Claims record), the latter
modelled from the specification where their code is not part of the
source fragment.

Machine integers do not occur on the modelled paths; HTTP status codes
are Nat.  Fallible operations return Except.  Go JSON decoding of the
profile struct is embedded at the level of a JSON value tree, mirroring
encoding/json semantics for the concrete struct: unknown object keys are
ignored, JSON null leaves the current value in place (and sets a pointer
field to nil), and a type mismatch (for example a JSON string or number
arriving at a Go bool field) is a decode error.  Go also matches object
keys case-insensitively as a fallback; the inputs relevant here use the
exact tag spellings, so the embedding matches tags exactly.
-/

/-- A JSON value, as produced by parsing a response body. -/
inductive JsonVal where
  | null : JsonVal
  | bool (b : Bool) : JsonVal
  | num (n : Int) : JsonVal
  | str (s : String) : JsonVal
  | arr (xs : List JsonVal) : JsonVal
  | obj (fields : List (String × JsonVal)) : JsonVal

/-- The nested optional locale substructure of the LinkedIn profile
(provider_linkedin.go lines 31-33; the field is spelled Lanuguage in the
source, with json tag "language"). -/
structure LinkedInLocale where
  Lanuguage : String

/-- The provider-specific profile shape (provider_linkedin.go lines 24-34).
EmailVerified has Go type bool; Locale is a nil-able pointer, embedded as
Option. -/
structure LinkedInProfile where
  LocalizedLastName : String
  LocalizedFirstName : String
  ProfilePicture : String
  EmailAddress : String
  EmailVerified : Bool
  ID : String
  Locale : Option LinkedInLocale

/-- The Go zero value of LinkedInProfile, the starting point of
encoding/json decoding into a fresh struct. -/
def LinkedInProfile.zero : LinkedInProfile :=
  { LocalizedLastName := ""
    LocalizedFirstName := ""
    ProfilePicture := ""
    EmailAddress := ""
    EmailVerified := false
    ID := ""
    Locale := none }

/-- encoding/json semantics for a Go string field: a JSON string is
stored, JSON null leaves the current value, anything else is a type
error. -/
def decodeStringField (cur : String) : JsonVal → Except String String
  | JsonVal.str s => Except.ok s
  | JsonVal.null => Except.ok cur
  | _ => Except.error "json: cannot unmarshal value into Go field of type string"

/-- encoding/json semantics for a Go bool field: only a JSON boolean is
accepted (JSON null leaves the current value); a JSON string such as
"true" or a JSON number such as 1 is a type error. -/
def decodeBoolField (cur : Bool) : JsonVal → Except String Bool
  | JsonVal.bool b => Except.ok b
  | JsonVal.null => Except.ok cur
  | _ => Except.error "json: cannot unmarshal value into Go field of type bool"

/-- encoding/json decoding of the locale struct: only the key "language"
is bound; unknown keys are ignored. -/
def decodeLocaleStruct (cur : LinkedInLocale) (v : JsonVal) : Except String LinkedInLocale :=
  match v with
  | JsonVal.obj fields =>
    fields.foldlM
      (fun acc kv =>
        if kv.1 = "language" then
          (decodeStringField acc.Lanuguage kv.2).map fun s => { Lanuguage := s }
        else
          Except.ok acc)
      cur
  | JsonVal.null => Except.ok cur
  | _ => Except.error "json: cannot unmarshal value into Go field of type struct"

/-- encoding/json semantics for the pointer-typed locale field: JSON null
sets the pointer to nil, a JSON object is decoded into a (fresh or
existing) struct, anything else is a type error. -/
def decodeLocaleField (cur : Option LinkedInLocale) (v : JsonVal) :
    Except String (Option LinkedInLocale) :=
  match v with
  | JsonVal.null => Except.ok none
  | JsonVal.obj fields =>
    (decodeLocaleStruct (cur.getD { Lanuguage := "" }) (JsonVal.obj fields)).map some
  | _ => Except.error "json: cannot unmarshal value into Go field of type struct pointer"

/-- Binds one JSON object member to the LinkedInProfile field carrying the
matching json tag (provider_linkedin.go lines 24-34); unknown keys are
ignored, as encoding/json does. -/
def applyProfileField (p : LinkedInProfile) (k : String) (v : JsonVal) :
    Except String LinkedInProfile :=
  if k = "family_name" then
    (decodeStringField p.LocalizedLastName v).map fun s => { p with LocalizedLastName := s }
  else if k = "given_name" then
    (decodeStringField p.LocalizedFirstName v).map fun s => { p with LocalizedFirstName := s }
  else if k = "picture" then
    (decodeStringField p.ProfilePicture v).map fun s => { p with ProfilePicture := s }
  else if k = "email" then
    (decodeStringField p.EmailAddress v).map fun s => { p with EmailAddress := s }
  else if k = "email_verified" then
    (decodeBoolField p.EmailVerified v).map fun b => { p with EmailVerified := b }
  else if k = "sub" then
    (decodeStringField p.ID v).map fun s => { p with ID := s }
  else if k = "locale" then
    (decodeLocaleField p.Locale v).map fun o => { p with Locale := o }
  else
    Except.ok p

/-- encoding/json decoding of a JSON value into LinkedInProfile: the value
must be an object (or null, which leaves the zero struct); members are
processed in their textual order and the first type mismatch aborts. -/
def decodeLinkedInProfile : JsonVal → Except String LinkedInProfile
  | JsonVal.obj fields => fields.foldlM (fun p kv => applyProfileField p kv.1 kv.2) LinkedInProfile.zero
  | JsonVal.null => Except.ok LinkedInProfile.zero
  | _ => Except.error "json: cannot unmarshal value into Go value of type oidc.LinkedInProfile"

/-- A response body is either a parsed JSON value or syntactically invalid
JSON (none); json.Decoder.Decode fails on the latter. -/
def decodeLinkedInBody : Option JsonVal → Except String LinkedInProfile
  | none => Except.error "invalid character in response body"
  | some v => decodeLinkedInProfile v

/-- An HTTP response from the profile endpoint: a status code and a body
(none when the body is not syntactically valid JSON). -/
structure HttpResponse where
  status : Nat
  body : Option JsonVal

/-- Modelled from the spec: the retrying client (httpx resilient client /
retryablehttp, outside this source fragment) retries transient 5xx
failures; any other status ends the attempt loop. -/
def isRetryableStatus (s : Nat) : Bool :=
  decide (500 ≤ s) && decide (s ≤ 599)

/-- Attempt loop of the retrying client: upstream gives the response of
each attempt (0-indexed), fuel bounds the remaining retries.  Returns the
final response together with the number of attempts performed. -/
def clientDoAux (upstream : Nat → HttpResponse) : Nat → Nat → HttpResponse × Nat
  | i, 0 => (upstream i, i + 1)
  | i, fuel + 1 =>
    let r := upstream i
    if isRetryableStatus r.status then clientDoAux upstream (i + 1) fuel
    else (r, i + 1)

/-- Modelled from the spec: client.Do performs up to budget attempts
(bounded retry with backoff on 5xx), returning the final response and the
attempt count.  budget is at least 1. -/
def clientDo (upstream : Nat → HttpResponse) (budget : Nat) : HttpResponse × Nat :=
  clientDoAux upstream 0 (budget - 1)

/-- Classified failures of the profile fetch. -/
inductive FetchError where
  | upstream (provider : String) (status : Nat)
  | decode (msg : String)

/-- The text of a fetch failure, as interpolated by the %s verb when the
adapter wraps it. -/
def FetchError.message : FetchError → String
  | FetchError.upstream p s =>
    "the upstream provider " ++ p ++ " responded with status code " ++ toString s
  | FetchError.decode m => m

/-- Modelled from the spec: logUpstreamError (defined elsewhere in the
repository) classifies a non-2xx response as an upstream error carrying
the provider name and status, and lets a 2xx response through. -/
def logUpstreamError (res : HttpResponse) : Option FetchError :=
  if 200 ≤ res.status ∧ res.status ≤ 299 then none
  else some (FetchError.upstream "linkedin" res.status)

/-- Modelled from the spec: an opaque request context; the base-URL
configuration is read from it through the dependency bag. -/
structure Ctx where
  id : Nat

/-- Modelled from the spec: per-provider static configuration (client ID,
client secret, scope list, provider ID) with Redir computing the redirect
URL from the configured base. -/
structure Configuration where
  ID : String
  ClientID : String
  ClientSecret : String
  Scope : List String
  Redir : String → String

/-- Modelled from the spec: the dependency bag; only the base-URL lookup
feeds data into the modelled paths (tracer and logger are observability
only, and the HTTP client behaviour is the upstream/budget environment
threaded through fetch). -/
structure Dependencies where
  oidcRedirectURIBase : Ctx → String

/-- The provider adapter (provider_linkedin.go lines 54-57). -/
structure ProviderLinkedIn where
  config : Configuration
  reg : Dependencies

/-- Constructor (provider_linkedin.go lines 59-67). -/
def NewProviderLinkedIn (config : Configuration) (reg : Dependencies) : ProviderLinkedIn :=
  { config := config, reg := reg }

/-- The fixed profile endpoint URL (provider_linkedin.go line 50). -/
def ProfileUrl : String := "https://api.linkedin.com/v2/userinfo"

/-- The OAuth2 endpoint pair; AuthURL and TokenURL are the constants of
the linkedin endpoint package linked by the source. -/
structure OAuth2Endpoint where
  AuthURL : String
  TokenURL : String

/-- The linkedin endpoint constants. -/
def linkedinEndpoint : OAuth2Endpoint :=
  { AuthURL := "https://www.linkedin.com/oauth/v2/authorization"
    TokenURL := "https://www.linkedin.com/oauth/v2/accessToken" }

/-- The OAuth2 settings record returned to the orchestrator. -/
structure OAuth2Config where
  ClientID : String
  ClientSecret : String
  Endpoint : OAuth2Endpoint
  Scopes : List String
  RedirectURL : String

/-- Modelled from the spec: the completed token from the code exchange, as
handed in by the orchestrator; it configures the authenticated client
opaquely and carries no data used by the mapping. -/
structure Token where
  AccessToken : String
  RefreshToken : String
  Expiry : Nat

/-- One extra authorization-URL query parameter. -/
structure AuthCodeOption where
  key : String
  value : String

/-- The request-context argument of AuthCodeURLOptions (the ider
interface); only its identity is carried. -/
structure ider where
  flowID : String

/-- Modelled from the spec: the canonical Claims record all adapters
produce (Claims type lives elsewhere in the repository). -/
structure Claims where
  Subject : String
  Issuer : String
  Email : String
  EmailVerified : Bool
  GivenName : String
  LastName : String
  Picture : String
  Locale : String

/-- Modelled from the spec: herodot's error type; message is the
user-facing text, reason carries detail kept internally for
logging/tracing. -/
structure HerodotError where
  code : Nat
  status : String
  message : String
  reason : String

/-- Modelled from the spec: the generic internal-server-error value; its
user-facing message is a fixed generic sentence. -/
def ErrInternalServerError : HerodotError :=
  { code := 500
    status := "Internal Server Error"
    message := "An internal server error occurred, please contact the system administrator"
    reason := "" }

/-- Modelled from the spec: WithReasonf attaches the formatted detail as
the internal reason, leaving code, status and message untouched. -/
def HerodotError.WithReasonf (e : HerodotError) (detail : String) : HerodotError :=
  { e with reason := detail }

/-- The x.ConvertibleBoolean conversion as used at provider_linkedin.go
line 156: the profile field already has Go type bool, so the conversion is
the identity on Bool (the type's wire-level unmarshalling never runs on
this path). -/
def ConvertibleBoolean (b : Bool) : Bool := b

/-- Config (provider_linkedin.go lines 69-71).  Each method is embedded in
state-passing style, returning its result together with the receiver's
final state, so that the absence of mutation is a proved property rather
than a modelling assumption; the Go body performs no assignment, so the
returned state is the receiver unchanged. -/
def ProviderLinkedIn.Config (l : ProviderLinkedIn) : Configuration × ProviderLinkedIn :=
  (l.config, l)

/-- The private oauth2 helper (provider_linkedin.go lines 73-81): builds
the settings from the configuration, the linkedin endpoint constants and
the redirect URL computed from the context. -/
def ProviderLinkedIn.oauth2 (l : ProviderLinkedIn) (ctx : Ctx) : OAuth2Config :=
  { ClientID := l.config.ClientID
    ClientSecret := l.config.ClientSecret
    Endpoint := linkedinEndpoint
    Scopes := l.config.Scope
    RedirectURL := l.config.Redir (l.reg.oidcRedirectURIBase ctx) }

/-- OAuth2 (provider_linkedin.go lines 83-85): returns the settings with a
nil error, unconditionally. -/
def ProviderLinkedIn.OAuth2 (l : ProviderLinkedIn) (ctx : Ctx) :
    Except String OAuth2Config × ProviderLinkedIn :=
  (Except.ok (l.oauth2 ctx), l)

/-- AuthCodeURLOptions (provider_linkedin.go lines 87-89): the empty list,
unconditionally. -/
def ProviderLinkedIn.AuthCodeURLOptions (l : ProviderLinkedIn) (r : ider) :
    List AuthCodeOption × ProviderLinkedIn :=
  ([], l)

/-- fetch (provider_linkedin.go lines 91-115): one GET through the
retrying client, then upstream-status classification, then JSON decoding
into the caller-supplied shape.  The tracing span (lines 92-93) is
observability only and not modelled; request construction (line 95)
cannot fail for the constant profile URL; network-level failures are not
injected, so client.Do always yields a response.  The attempt count of
the retrying client is returned as an observable alongside the result. -/
def ProviderLinkedIn.fetch {α : Type} (l : ProviderLinkedIn) (upstream : Nat → HttpResponse)
    (budget : Nat) (decode : Option JsonVal → Except String α) :
    Except FetchError α × Nat :=
  let rn := clientDo upstream budget
  match logUpstreamError rn.1 with
  | some e => (Except.error e, rn.2)
  | none =>
    match decode rn.1.body with
    | Except.error m => (Except.error (FetchError.decode m), rn.2)
    | Except.ok v => (Except.ok v, rn.2)

/-- Profile (provider_linkedin.go lines 117-125): fetch against the
profile URL with the LinkedIn profile shape as destination;
errors.WithStack only adds a stack trace, so the classification passes
through unchanged. -/
def ProviderLinkedIn.Profile (l : ProviderLinkedIn) (upstream : Nat → HttpResponse)
    (budget : Nat) : Except FetchError LinkedInProfile × ProviderLinkedIn :=
  match (l.fetch upstream budget decodeLinkedInBody).1 with
  | Except.error e => (Except.error e, l)
  | Except.ok p => (Except.ok p, l)

/-- ProfileLocale (provider_linkedin.go lines 127-132): empty string when
the locale pointer is nil, the nested language field otherwise. -/
def ProviderLinkedIn.ProfileLocale (l : ProviderLinkedIn) (profile : LinkedInProfile) : String :=
  match profile.Locale with
  | none => ""
  | some loc => loc.Lanuguage

/-- Claims (provider_linkedin.go lines 134-161): obtain OAuth2 settings
(wrapping a failure as a generic internal error), build the authenticated
client (httpx.SetOAuth2, line 143, whose behaviour is the upstream/budget
environment), fetch the profile (again wrapping a failure as a generic
internal error with the detail in the reason), and map the profile fields
into the canonical record.  The tracing span (lines 135-136) is
observability only and not modelled. -/
def ProviderLinkedIn.Claims (l : ProviderLinkedIn) (ctx : Ctx) (exchange : Token)
    (query : List (String × String)) (upstream : Nat → HttpResponse) (budget : Nat) :
    Except HerodotError Claims × ProviderLinkedIn :=
  match l.OAuth2 ctx with
  | (Except.error e, l1) => (Except.error (ErrInternalServerError.WithReasonf e), l1)
  | (Except.ok _o, l1) =>
    match l1.Profile upstream budget with
    | (Except.error e, l2) =>
      (Except.error (ErrInternalServerError.WithReasonf (FetchError.message e)), l2)
    | (Except.ok profile, l2) =>
      (Except.ok
        { Subject := profile.ID
          Issuer := "https://login.linkedin.com/"
          Email := profile.EmailAddress
          GivenName := profile.LocalizedFirstName
          LastName := profile.LocalizedLastName
          Picture := profile.ProfilePicture
          EmailVerified := ConvertibleBoolean profile.EmailVerified
          Locale := l2.ProfileLocale profile },
        l2)

/-- A concrete provider instance used by the concrete evaluations below. -/
def lEx : ProviderLinkedIn :=
  NewProviderLinkedIn
    { ID := "linkedin"
      ClientID := "client-id"
      ClientSecret := "client-secret"
      Scope := ["openid", "profile", "email"]
      Redir := fun base => base ++ "/self-service/methods/oidc/callback/linkedin" }
    { oidcRedirectURIBase := fun _ => "https://example.org" }

/-- A concrete request context. -/
def ctxEx : Ctx := { id := 0 }

/-- A concrete exchanged token. -/
def tokEx : Token := { AccessToken := "access-token", RefreshToken := "", Expiry := 0 }

/-- The profile body of the spec's concrete scenario, with email_verified
arriving as the JSON string "true". -/
def c1Body : JsonVal :=
  JsonVal.obj
    [("sub", JsonVal.str "abc123"),
     ("email", JsonVal.str "a@example.com"),
     ("email_verified", JsonVal.str "true"),
     ("given_name", JsonVal.str "Ann"),
     ("family_name", JsonVal.str "Lee"),
     ("picture", JsonVal.str "http://img"),
     ("locale", JsonVal.obj [("language", JsonVal.str "en-US")])]

/-- The same scenario body with email_verified as a native JSON boolean. -/
def c1BodyNativeBool : JsonVal :=
  JsonVal.obj
    [("sub", JsonVal.str "abc123"),
     ("email", JsonVal.str "a@example.com"),
     ("email_verified", JsonVal.bool true),
     ("given_name", JsonVal.str "Ann"),
     ("family_name", JsonVal.str "Lee"),
     ("picture", JsonVal.str "http://img"),
     ("locale", JsonVal.obj [("language", JsonVal.str "en-US")])]

/-- The 200 response whose body has no locale member at all, the
spec's second concrete scenario. -/
def uNoLoc : Nat → HttpResponse :=
  fun _ => { status := 200, body := some (JsonVal.obj [("sub", JsonVal.str "abc123")]) }

/-- The profile decoded from uNoLoc. -/
def pNoLoc : LinkedInProfile := { LinkedInProfile.zero with ID := "abc123" }

/-- The claims produced from uNoLoc. -/
def cNoLoc : Claims :=
  { Subject := "abc123"
    Issuer := "https://login.linkedin.com/"
    Email := ""
    EmailVerified := false
    GivenName := ""
    LastName := ""
    Picture := ""
    Locale := "" }

/-- The always-500 upstream with a perfectly decodable body. -/
def u500 : Nat → HttpResponse :=
  fun _ => { status := 500, body := some c1BodyNativeBool }

/-- The 200 upstream whose body is not valid JSON. -/
def uBad : Nat → HttpResponse := fun _ => { status := 200, body := none }

/-- The herodot error produced by a single-attempt 500 run. -/
def eEx : HerodotError :=
  ErrInternalServerError.WithReasonf
    "the upstream provider linkedin responded with status code 500"

/-- The 200 upstream serving the scenario body with a native boolean. -/
def uNative : Nat → HttpResponse :=
  fun _ => { status := 200, body := some c1BodyNativeBool }

/-- The profile decoded from uNative. -/
def pNative : LinkedInProfile :=
  { LocalizedLastName := "Lee"
    LocalizedFirstName := "Ann"
    ProfilePicture := "http://img"
    EmailAddress := "a@example.com"
    EmailVerified := true
    ID := "abc123"
    Locale := some { Lanuguage := "en-US" } }

/-- The claims produced from uNative. -/
def cNative : Claims :=
  { Subject := "abc123"
    Issuer := "https://login.linkedin.com/"
    Email := "a@example.com"
    EmailVerified := true
    GivenName := "Ann"
    LastName := "Lee"
    Picture := "http://img"
    Locale := "en-US" }

example :
    decodeLinkedInProfile c1Body
      = Except.error "json: cannot unmarshal value into Go field of type bool" := rfl

example :
    decodeLinkedInProfile c1BodyNativeBool
      = Except.ok
          { LocalizedLastName := "Lee"
            LocalizedFirstName := "Ann"
            ProfilePicture := "http://img"
            EmailAddress := "a@example.com"
            EmailVerified := true
            ID := "abc123"
            Locale := some { Lanuguage := "en-US" } } := rfl

example :
    (ProviderLinkedIn.Claims lEx ctxEx tokEx []
        (fun _ => { status := 200, body := some c1Body }) 3).1
      = Except.error
          (ErrInternalServerError.WithReasonf
            "json: cannot unmarshal value into Go field of type bool") := rfl

example :
    (ProviderLinkedIn.Claims lEx ctxEx tokEx []
        (fun _ => { status := 200, body := some c1BodyNativeBool }) 3).1
      = Except.ok
          { Subject := "abc123"
            Issuer := "https://login.linkedin.com/"
            Email := "a@example.com"
            EmailVerified := true
            GivenName := "Ann"
            LastName := "Lee"
            Picture := "http://img"
            Locale := "en-US" } := rfl

example :
    (ProviderLinkedIn.Claims lEx ctxEx tokEx []
        (fun _ => { status := 500, body := none }) 3).1
      = Except.error
          (ErrInternalServerError.WithReasonf
            "the upstream provider linkedin responded with status code 500") := rfl

example :
    (ProviderLinkedIn.fetch lEx (fun _ => { status := 500, body := none }) 3
      decodeLinkedInBody).2 = 3 := rfl

lemma clientDoAux_retryable_const (status : Nat) (body : Option JsonVal)
    (h : isRetryableStatus status = true) :
    ∀ (fuel i : Nat),
      clientDoAux (fun _ => { status := status, body := body }) i fuel
        = ({ status := status, body := body }, i + fuel + 1) := by
  intro fuel
  induction fuel with
  | zero => intro i; simp [clientDoAux]
  | succ n ih =>
    intro i
    simp only [clientDoAux, h, if_true]
    rw [ih]
    simp [Prod.ext_iff]
    omega

lemma clientDo_retryable_const (status : Nat) (body : Option JsonVal) (b : Nat)
    (h : isRetryableStatus status = true) (hb : 1 ≤ b) :
    clientDo (fun _ => { status := status, body := body }) b
      = ({ status := status, body := body }, b) := by
  unfold clientDo
  rw [clientDoAux_retryable_const status body h]
  simp [Prod.ext_iff]
  omega

lemma clientDo_first_not_retryable (upstream : Nat → HttpResponse) (b : Nat)
    (h : isRetryableStatus (upstream 0).status = false) :
    clientDo upstream b = (upstream 0, 1) := by
  unfold clientDo
  cases b - 1 with
  | zero => simp [clientDoAux]
  | succ n => simp [clientDoAux, h]

lemma ProviderLinkedIn.Profile_fst (l : ProviderLinkedIn) (u : Nat → HttpResponse) (b : Nat) :
    (l.Profile u b).1 = (l.fetch u b decodeLinkedInBody).1 := by
  cases h : (l.fetch u b decodeLinkedInBody).1 <;> simp [ProviderLinkedIn.Profile, h]

lemma ProviderLinkedIn.Profile_snd (l : ProviderLinkedIn) (u : Nat → HttpResponse) (b : Nat) :
    (l.Profile u b).2 = l := by
  cases h : (l.fetch u b decodeLinkedInBody).1 <;> simp [ProviderLinkedIn.Profile, h]

lemma ProviderLinkedIn.Claims_def (l : ProviderLinkedIn) (ctx : Ctx) (tok : Token)
    (q : List (String × String)) (u : Nat → HttpResponse) (b : Nat) :
    l.Claims ctx tok q u b
      = (match l.Profile u b with
         | (Except.error e, l2) =>
           (Except.error (ErrInternalServerError.WithReasonf (FetchError.message e)), l2)
         | (Except.ok profile, l2) =>
           (Except.ok
             { Subject := profile.ID
               Issuer := "https://login.linkedin.com/"
               Email := profile.EmailAddress
               GivenName := profile.LocalizedFirstName
               LastName := profile.LocalizedLastName
               Picture := profile.ProfilePicture
               EmailVerified := ConvertibleBoolean profile.EmailVerified
               Locale := l2.ProfileLocale profile },
             l2)) := rfl

lemma ProviderLinkedIn.Claims_of_profile_error (l : ProviderLinkedIn) (ctx : Ctx) (tok : Token)
    (q : List (String × String)) (u : Nat → HttpResponse) (b : Nat) (e : FetchError)
    (h : (l.Profile u b).1 = Except.error e) :
    (l.Claims ctx tok q u b).1
      = Except.error (ErrInternalServerError.WithReasonf (FetchError.message e)) := by
  rw [ProviderLinkedIn.Claims_def]
  rcases hPr : l.Profile u b with ⟨r, l2⟩
  rw [hPr] at h
  have hr : r = Except.error e := h
  subst hr
  rfl

lemma ProviderLinkedIn.Claims_of_profile_ok (l : ProviderLinkedIn) (ctx : Ctx) (tok : Token)
    (q : List (String × String)) (u : Nat → HttpResponse) (b : Nat) (p : LinkedInProfile)
    (h : (l.Profile u b).1 = Except.ok p) :
    (l.Claims ctx tok q u b).1
      = Except.ok
          { Subject := p.ID
            Issuer := "https://login.linkedin.com/"
            Email := p.EmailAddress
            GivenName := p.LocalizedFirstName
            LastName := p.LocalizedLastName
            Picture := p.ProfilePicture
            EmailVerified := ConvertibleBoolean p.EmailVerified
            Locale := l.ProfileLocale p } := by
  rw [ProviderLinkedIn.Claims_def]
  rcases hPr : l.Profile u b with ⟨r, l2⟩
  rw [hPr] at h
  have hr : r = Except.ok p := h
  subst hr
  rfl

lemma ProviderLinkedIn.Claims_snd (l : ProviderLinkedIn) (ctx : Ctx) (tok : Token)
    (q : List (String × String)) (u : Nat → HttpResponse) (b : Nat) :
    (l.Claims ctx tok q u b).2 = l := by
  rw [ProviderLinkedIn.Claims_def]
  rcases hPr : l.Profile u b with ⟨r, l2⟩
  have hl2 : l2 = l := by
    have h2 := l.Profile_snd u b
    rw [hPr] at h2
    exact h2
  subst hl2
  cases r <;> rfl

lemma ProviderLinkedIn.fetch_upstream_err {α : Type} (l : ProviderLinkedIn)
    (u : Nat → HttpResponse) (b : Nat) (d : Option JsonVal → Except String α)
    (res : HttpResponse) (n : Nat) (e : FetchError)
    (h : clientDo u b = (res, n)) (h2 : logUpstreamError res = some e) :
    l.fetch u b d = (Except.error e, n) := by
  unfold ProviderLinkedIn.fetch
  rw [h]
  simp only [h2]

lemma ProviderLinkedIn.fetch_decode_err {α : Type} (l : ProviderLinkedIn)
    (u : Nat → HttpResponse) (b : Nat) (d : Option JsonVal → Except String α)
    (res : HttpResponse) (n : Nat) (m : String)
    (h : clientDo u b = (res, n)) (h2 : logUpstreamError res = none)
    (h3 : d res.body = Except.error m) :
    l.fetch u b d = (Except.error (FetchError.decode m), n) := by
  unfold ProviderLinkedIn.fetch
  rw [h]
  simp only [h2, h3]

/-- C1: the claim expects Claims to succeed on the concrete scenario body,
in which email_verified arrives as the JSON string "true", and to return
EmailVerified true.  On the code as written, LinkedInProfile.EmailVerified
has Go type bool, so decoding that body fails with a type error and
Claims returns a wrapped internal error instead of succeeding: the code
contradicts the documented scenario (the no-op ConvertibleBoolean cast at
line 156 shows the normalization was intended at the wire level). -/
theorem claims_scenario_string_verified_errors :
    (ProviderLinkedIn.Claims lEx ctxEx tokEx []
        (fun _ => { status := 200, body := some c1Body }) 3).1
      = Except.error
          (ErrInternalServerError.WithReasonf
            "json: cannot unmarshal value into Go field of type bool") := rfl

/-- C2: of the boolean-verified wire encodings, only the native JSON
booleans reach the normalized EmailVerified (true maps to true, false to
false); the JSON strings "true"/"false" and the JSON numbers 1/0 are
rejected by the decoder because the profile field has Go type bool, so
the claimed normalization of those encodings never happens. -/
theorem email_verified_wire_encodings :
    decodeLinkedInProfile (JsonVal.obj [("email_verified", JsonVal.bool true)])
        = Except.ok { LinkedInProfile.zero with EmailVerified := true }
    ∧ decodeLinkedInProfile (JsonVal.obj [("email_verified", JsonVal.bool false)])
        = Except.ok LinkedInProfile.zero
    ∧ ConvertibleBoolean true = true
    ∧ ConvertibleBoolean false = false
    ∧ decodeLinkedInProfile (JsonVal.obj [("email_verified", JsonVal.str "true")])
        = Except.error "json: cannot unmarshal value into Go field of type bool"
    ∧ decodeLinkedInProfile (JsonVal.obj [("email_verified", JsonVal.str "false")])
        = Except.error "json: cannot unmarshal value into Go field of type bool"
    ∧ decodeLinkedInProfile (JsonVal.obj [("email_verified", JsonVal.num 1)])
        = Except.error "json: cannot unmarshal value into Go field of type bool"
    ∧ decodeLinkedInProfile (JsonVal.obj [("email_verified", JsonVal.num 0)])
        = Except.error "json: cannot unmarshal value into Go field of type bool" :=
  ⟨rfl, rfl, rfl, rfl, rfl, rfl, rfl, rfl⟩

/-- C3: whenever the decoded profile's locale substructure is absent
(Locale is none), the Locale of the Claims returned by a successful run
is the empty string, and ProfileLocale short-circuits to the empty string
without touching the absent substructure. -/
theorem locale_absent_gives_empty_locale :
    ∀ (l : ProviderLinkedIn) (ctx : Ctx) (tok : Token) (q : List (String × String))
      (u : Nat → HttpResponse) (b : Nat) (p : LinkedInProfile) (c : Claims),
      (l.Profile u b).1 = Except.ok p → p.Locale = none →
      (l.Claims ctx tok q u b).1 = Except.ok c →
      c.Locale = "" ∧ l.ProfileLocale p = "" := by
  intro l ctx tok q u b p c hp hloc hc
  have h1 := ProviderLinkedIn.Claims_of_profile_ok l ctx tok q u b p hp
  rw [hc] at h1
  have hcp := Except.ok.inj h1
  have hpl : l.ProfileLocale p = "" := by
    simp [ProviderLinkedIn.ProfileLocale, hloc]
  exact ⟨by rw [hcp]; exact hpl, hpl⟩

/-- Witness for C3 at a concrete run with the locale member omitted. -/
theorem locale_absent_witness : cNoLoc.Locale = "" ∧ lEx.ProfileLocale pNoLoc = "" :=
  locale_absent_gives_empty_locale lEx ctxEx tokEx [] uNoLoc 1 pNoLoc cNoLoc rfl rfl rfl

/-- C4: a non-2xx final response is classified as an upstream error
carrying the provider name and status, and the result does not depend on
the response body (no JSON decoding is attempted: the body is universally
quantified and decodable in the witness); in the HTTP 500 case of the
claim, the retrying client performs at least two attempts when the budget
allows, and Claims surfaces the failure as a wrapped internal error. -/
theorem non2xx_upstream_error_and_500_retried :
    ∀ (l : ProviderLinkedIn) (ctx : Ctx) (tok : Token) (q : List (String × String))
      (body : Option JsonVal) (b : Nat), 2 ≤ b →
      (∀ res : HttpResponse, ¬(200 ≤ res.status ∧ res.status ≤ 299) →
        logUpstreamError res = some (FetchError.upstream "linkedin" res.status))
      ∧ (l.fetch (fun _ => { status := 500, body := body }) b decodeLinkedInBody).1
          = Except.error (FetchError.upstream "linkedin" 500)
      ∧ 2 ≤ (l.fetch (fun _ => { status := 500, body := body }) b decodeLinkedInBody).2
      ∧ (l.Claims ctx tok q (fun _ => { status := 500, body := body }) b).1
          = Except.error
              (ErrInternalServerError.WithReasonf
                (FetchError.message (FetchError.upstream "linkedin" 500))) := by
  intro l ctx tok q body b hb
  have hcd := clientDo_retryable_const 500 body b rfl (by omega)
  have hfetch :=
    ProviderLinkedIn.fetch_upstream_err l (fun _ => { status := 500, body := body }) b
      decodeLinkedInBody { status := 500, body := body } b
      (FetchError.upstream "linkedin" 500) hcd rfl
  refine ⟨?_, ?_, ?_, ?_⟩
  · intro res h
    simp [logUpstreamError, h]
  · rw [hfetch]
  · rw [hfetch]
    exact hb
  · have hprof : (l.Profile (fun _ => { status := 500, body := body }) b).1
        = Except.error (FetchError.upstream "linkedin" 500) := by
      rw [ProviderLinkedIn.Profile_fst, hfetch]
    exact ProviderLinkedIn.Claims_of_profile_error l ctx tok q _ b _ hprof

/-- Witness for C4 at a concrete 500 upstream with budget 3: upstream
classification, three attempts (hence at least one retry), and the
wrapped internal error from Claims. -/
theorem non2xx_upstream_witness :
    (lEx.fetch u500 3 decodeLinkedInBody).1
        = Except.error (FetchError.upstream "linkedin" 500)
    ∧ 2 ≤ (lEx.fetch u500 3 decodeLinkedInBody).2
    ∧ (lEx.Claims ctxEx tokEx [] u500 3).1
        = Except.error
            (ErrInternalServerError.WithReasonf
              (FetchError.message (FetchError.upstream "linkedin" 500))) :=
  ⟨(non2xx_upstream_error_and_500_retried lEx ctxEx tokEx []
      (some c1BodyNativeBool) 3 (by decide)).2.1,
   (non2xx_upstream_error_and_500_retried lEx ctxEx tokEx []
      (some c1BodyNativeBool) 3 (by decide)).2.2.1,
   (non2xx_upstream_error_and_500_retried lEx ctxEx tokEx []
      (some c1BodyNativeBool) 3 (by decide)).2.2.2⟩

/-- C5: an HTTP 200 response whose body does not decode into the LinkedIn
profile shape makes Claims return a wrapped internal error, and the fetch
performs exactly one attempt — the decode failure is not retried. -/
theorem malformed_200_not_retried :
    ∀ (l : ProviderLinkedIn) (ctx : Ctx) (tok : Token) (q : List (String × String))
      (body : Option JsonVal) (m : String) (b : Nat),
      decodeLinkedInBody body = Except.error m →
      (l.fetch (fun _ => { status := 200, body := body }) b decodeLinkedInBody).1
          = Except.error (FetchError.decode m)
      ∧ (l.fetch (fun _ => { status := 200, body := body }) b decodeLinkedInBody).2 = 1
      ∧ (l.Claims ctx tok q (fun _ => { status := 200, body := body }) b).1
          = Except.error (ErrInternalServerError.WithReasonf m) := by
  intro l ctx tok q body m b hdec
  have hcd := clientDo_first_not_retryable (fun _ => { status := 200, body := body }) b rfl
  have hfetch :=
    ProviderLinkedIn.fetch_decode_err l (fun _ => { status := 200, body := body }) b
      decodeLinkedInBody { status := 200, body := body } 1 m hcd rfl hdec
  refine ⟨by rw [hfetch], by rw [hfetch], ?_⟩
  have hprof : (l.Profile (fun _ => { status := 200, body := body }) b).1
      = Except.error (FetchError.decode m) := by
    rw [ProviderLinkedIn.Profile_fst, hfetch]
  exact ProviderLinkedIn.Claims_of_profile_error l ctx tok q _ b _ hprof

/-- Witness for C5 at a concrete unparsable 200 body and budget 3: decode
error, exactly one attempt, wrapped internal error from Claims. -/
theorem malformed_200_witness :
    (lEx.fetch uBad 3 decodeLinkedInBody).1
        = Except.error (FetchError.decode "invalid character in response body")
    ∧ (lEx.fetch uBad 3 decodeLinkedInBody).2 = 1
    ∧ (lEx.Claims ctxEx tokEx [] uBad 3).1
        = Except.error
            (ErrInternalServerError.WithReasonf "invalid character in response body") :=
  malformed_200_not_retried lEx ctxEx tokEx [] none
    "invalid character in response body" 3 rfl

/-- C6: every error surfaced by Claims carries the generic
internal-server-error classification — code 500, the generic status and
the generic user-facing message, all independent of the upstream failure
— while the upstream detail is kept only in the internal reason field
used for logging/tracing. -/
theorem claims_failures_generic_internal :
    ∀ (l : ProviderLinkedIn) (ctx : Ctx) (tok : Token) (q : List (String × String))
      (u : Nat → HttpResponse) (b : Nat) (e : HerodotError),
      (l.Claims ctx tok q u b).1 = Except.error e →
      e.code = ErrInternalServerError.code
      ∧ e.status = ErrInternalServerError.status
      ∧ e.message = ErrInternalServerError.message
      ∧ ∀ fe : FetchError, (l.Profile u b).1 = Except.error fe →
          e.reason = FetchError.message fe := by
  intro l ctx tok q u b e h
  cases hp : (l.Profile u b).1 with
  | error fe =>
    have hc := ProviderLinkedIn.Claims_of_profile_error l ctx tok q u b fe hp
    rw [h] at hc
    have he := Except.error.inj hc
    subst he
    refine ⟨rfl, rfl, rfl, ?_⟩
    intro fe' hfe'
    cases Except.error.inj hfe'
    rfl
  | ok p =>
    have hc := ProviderLinkedIn.Claims_of_profile_ok l ctx tok q u b p hp
    rw [h] at hc
    exact Except.noConfusion hc

/-- Witness for C6 at a concrete 500 run with budget 1: the surfaced
error keeps the generic code, status and message. -/
theorem claims_generic_internal_witness :
    eEx.code = ErrInternalServerError.code
    ∧ eEx.status = ErrInternalServerError.status
    ∧ eEx.message = ErrInternalServerError.message :=
  ⟨(claims_failures_generic_internal lEx ctxEx tokEx [] u500 1 eEx rfl).1,
   (claims_failures_generic_internal lEx ctxEx tokEx [] u500 1 eEx rfl).2.1,
   (claims_failures_generic_internal lEx ctxEx tokEx [] u500 1 eEx rfl).2.2.1⟩

/-- C7 counterexample: a valid token and an HTTP 200 profile response
whose body is the empty JSON object make Claims succeed with an empty
Subject, so the claim that every 200 response yields a non-empty Subject
is false at this input. -/
theorem subject_empty_on_empty_200_body :
    (ProviderLinkedIn.Claims lEx ctxEx tokEx []
        (fun _ => { status := 200, body := some (JsonVal.obj []) }) 1).1
      = Except.ok
          { Subject := ""
            Issuer := "https://login.linkedin.com/"
            Email := ""
            EmailVerified := false
            GivenName := ""
            LastName := ""
            Picture := ""
            Locale := "" } := rfl

/-- C7 as amended: on every successful run, the Issuer is the fixed
LinkedIn issuer URL (in particular non-empty), and the Subject is the
decoded profile's sub field verbatim — non-empty exactly when the
upstream returned a non-empty sub. -/
theorem claims_issuer_nonempty_subject_verbatim :
    ∀ (l : ProviderLinkedIn) (ctx : Ctx) (tok : Token) (q : List (String × String))
      (u : Nat → HttpResponse) (b : Nat) (c : Claims),
      (l.Claims ctx tok q u b).1 = Except.ok c →
      c.Issuer = "https://login.linkedin.com/"
      ∧ c.Issuer ≠ ""
      ∧ ∀ p : LinkedInProfile, (l.Profile u b).1 = Except.ok p → c.Subject = p.ID := by
  intro l ctx tok q u b c h
  cases hp : (l.Profile u b).1 with
  | error fe =>
    have hc := ProviderLinkedIn.Claims_of_profile_error l ctx tok q u b fe hp
    rw [h] at hc
    exact Except.noConfusion hc
  | ok p =>
    have hc := ProviderLinkedIn.Claims_of_profile_ok l ctx tok q u b p hp
    rw [h] at hc
    have hcr := Except.ok.inj hc
    subst hcr
    have hIss : ("https://login.linkedin.com/" : String) ≠ "" := by decide
    refine ⟨rfl, hIss, ?_⟩
    intro p' hp'
    cases Except.ok.inj hp'
    rfl

/-- Witness for the amended C7 at a concrete successful run. -/
theorem claims_issuer_nonempty_witness :
    cNative.Issuer = "https://login.linkedin.com/"
    ∧ cNative.Issuer ≠ ""
    ∧ cNative.Subject = pNative.ID :=
  ⟨(claims_issuer_nonempty_subject_verbatim lEx ctxEx tokEx [] uNative 1 cNative rfl).1,
   (claims_issuer_nonempty_subject_verbatim lEx ctxEx tokEx [] uNative 1 cNative rfl).2.1,
   (claims_issuer_nonempty_subject_verbatim lEx ctxEx tokEx [] uNative 1 cNative rfl).2.2
     pNative rfl⟩

/-- C8: OAuth2 never returns an error: for every provider state and every
context it returns the settings built from the configuration, the
linkedin endpoints and the redirect URL computed from the context, paired
with a nil error — so in particular it fails at most when the redirect
URL computation itself could fail, which on this code path it cannot. -/
theorem oauth2_always_returns_settings :
    ∀ (l : ProviderLinkedIn) (ctx : Ctx),
      l.OAuth2 ctx
        = (Except.ok
            { ClientID := l.config.ClientID
              ClientSecret := l.config.ClientSecret
              Endpoint := linkedinEndpoint
              Scopes := l.config.Scope
              RedirectURL := l.config.Redir (l.reg.oidcRedirectURIBase ctx) },
           l) :=
  fun l ctx => rfl

/-- C9: none of the provider's operations mutates the provider: Config,
OAuth2, AuthCodeURLOptions, Profile and Claims all return the receiver
unchanged, so repeated and concurrent calls observe the same
configuration and dependencies. -/
theorem provider_operations_preserve_state :
    ∀ (l : ProviderLinkedIn) (ctx : Ctx) (tok : Token) (q : List (String × String))
      (u : Nat → HttpResponse) (b : Nat) (r : ider),
      (l.Config).2 = l
      ∧ (l.OAuth2 ctx).2 = l
      ∧ (l.AuthCodeURLOptions r).2 = l
      ∧ (l.Profile u b).2 = l
      ∧ (l.Claims ctx tok q u b).2 = l := by
  intro l ctx tok q u b r
  exact ⟨rfl, rfl, rfl, l.Profile_snd u b, l.Claims_snd ctx tok q u b⟩

/-- C10: AuthCodeURLOptions returns the empty list of extra
authorization-URL parameters for every request input. -/
theorem authcode_url_options_empty :
    ∀ (l : ProviderLinkedIn) (r : ider), (l.AuthCodeURLOptions r).1 = [] :=
  fun l r => rfl
